import Mathlib

set_option maxHeartbeats 1000000

/-!
Shallow embedding of `src/waffda/types.py`: the `Type` wrapper class around the
host disassembler's type-information API (`idaapi`), together with a concrete
executable model of the host boundary (the declaration parser `parse_decl`, the
renderer `dstr`, and `tinfo_t` handles).  The host library is proprietary and
not part of the repository, so it is modelled here by a small unambiguous
declaration grammar with a proved parse/render round trip; the wrapper code
itself is translated line by line from `types.py`.
-/

/-- Python exceptions raised by the embedded code: `ValueError`, `NameError`,
`AttributeError` and `NotImplementedError`. -/
inductive PyErr where
| valueError (msg : String)
| nameError (msg : String)
| attributeError (msg : String)
| notImplementedError
deriving DecidableEq

/-- The `CallingConventions` enum, `types.py` lines 21-38 (the commented-out
members are omitted there as well). -/
inductive CallingConventions where
| invalid
| unknown
| voidarg
| cdecl
| ellipsis
| stdcall
| pascal
| fastcall
| thiscall
| manual
| spoiled
deriving DecidableEq

/-- Numeric value of each `CallingConventions` member (`types.py` lines 22-32). -/
def CallingConventions.value : CallingConventions → Nat
| .invalid => 0
| .unknown => 16
| .voidarg => 32
| .cdecl => 48
| .ellipsis => 64
| .stdcall => 80
| .pascal => 96
| .fastcall => 112
| .thiscall => 128
| .manual => 144
| .spoiled => 160

/-- Python's `CallingConventions(n)` enum lookup: `some` member when `n` is a
member value, `none` models the `ValueError` raised for a non-member. -/
def ccOfValue (n : Nat) : Option CallingConventions :=
  if n = 0 then some .invalid
  else if n = 16 then some .unknown
  else if n = 32 then some .voidarg
  else if n = 48 then some .cdecl
  else if n = 64 then some .ellipsis
  else if n = 80 then some .stdcall
  else if n = 96 then some .pascal
  else if n = 112 then some .fastcall
  else if n = 128 then some .thiscall
  else if n = 144 then some .manual
  else if n = 160 then some .spoiled
  else none

/-- Lines 127-130 of `types.py`: `try: CallingConventions(cc)` and, on
`ValueError`, `CallingConventions(cc ^ 3)`; a failure of the second lookup
propagates its `ValueError` out of the constructor. -/
def ccFixE (n : Nat) : Except PyErr CallingConventions :=
  match ccOfValue n with
  | some c => Except.ok c
  | none =>
    match ccOfValue (n ^^^ 3) with
    | some c => Except.ok c
    | none => Except.error (PyErr.valueError "not a valid CallingConventions")

mutual
/-- Model of a host `tinfo_t` type handle.  The model has named base types, a
pointer constructor, an array constructor, and function-pointer handles
(`fptr`, matching `tinfo_t.is_funcptr`); bare function types and struct types
are outside the modelled grammar (the wrapper aborts struct construction with
`NotImplementedError` before an object is ever produced, `types.py` line 138). -/
inductive CType where
| base (name : String)
| ptr (t : CType)
| arr (k : Nat) (elem : CType)
| fptr (ret : CType) (args : CTypes) (cc : Nat)

/-- Argument lists of function handles, specialised so mutual structural
recursion over `CType` stays elementary. -/
inductive CTypes where
| nil
| cons (head : CType) (tail : CTypes)
end

/-- Length of an argument list (models `tinfo_t.get_nargs`). -/
def CTypes.length : CTypes → Nat
| .nil => 0
| .cons _ t => t.length + 1

mutual
/-- Structural equality of host type handles: models `tinfo_t.__eq__`, which
compares the types themselves. -/
def ceqT : CType → CType → Bool
| .base a, .base b => a == b
| .ptr a, .ptr b => ceqT a b
| .arr k a, .arr m b => (k == m) && ceqT a b
| .fptr r1 a1 c1, .fptr r2 a2 c2 => ceqT r1 r2 && ceqTArgs a1 a2 && (c1 == c2)
| _, _ => false

/-- Pointwise `ceqT` on argument lists. -/
def ceqTArgs : CTypes → CTypes → Bool
| .nil, .nil => true
| .cons h1 t1, .cons h2 t2 => ceqT h1 h2 && ceqTArgs t1 t2
| _, _ => false
end

/-- The calling-convention value that the wrapper's enum translation
(`types.py` lines 127-130) ends up storing when it succeeds: `n` itself when
`n` is a member value, otherwise `n ^ 3`. -/
def canonCC (n : Nat) : Nat :=
  match ccOfValue n with
  | some _ => n
  | none => n ^^^ 3

mutual
/-- Canonical form of a host handle after one pass through the wrapper: the
only information the wrapper does not reproduce verbatim is a non-member
calling-convention value, which its enum translation replaces by `canonCC`. -/
def canonT : CType → CType
| .base n => .base n
| .ptr t => .ptr (canonT t)
| .arr k e => .arr k (canonT e)
| .fptr r a cc => .fptr (canonT r) (canonTArgs a) (canonCC cc)

/-- Map `canonT` over argument lists. -/
def canonTArgs : CTypes → CTypes
| .nil => .nil
| .cons h t => .cons (canonT h) (canonTArgs t)
end

/-- The host's table of named base types with their sizes in bytes (the model
of the type library behind `idaapi.cvar.idati`). -/
def lookupSize (n : String) : Option Int :=
  if n = "void" then some 1
  else if n = "bool" then some 1
  else if n = "char" then some 1
  else if n = "int32_t" then some 4
  else if n = "uint32_t" then some 4
  else none

mutual
/-- A host handle is well formed when every base name it mentions is a known
base type.  These are exactly the handles the modelled host parser can
produce. -/
def WFt : CType → Bool
| .base n => (lookupSize n).isSome
| .ptr t => WFt t
| .arr _ e => WFt e
| .fptr r a _ => WFt r && WFtArgs a

/-- Conjunction of `WFt` over argument lists. -/
def WFtArgs : CTypes → Bool
| .nil => true
| .cons h t => WFt h && WFtArgs t
end

mutual
/-- Every calling-convention value appearing in the handle is a member value
of the `CallingConventions` enum. -/
def ccOKT : CType → Bool
| .base _ => true
| .ptr t => ccOKT t
| .arr _ e => ccOKT e
| .fptr r a cc => (ccOfValue cc).isSome && ccOKT r && ccOKTArgs a

/-- Conjunction of `ccOKT` over argument lists. -/
def ccOKTArgs : CTypes → Bool
| .nil => true
| .cons h t => ccOKT h && ccOKTArgs t
end

/-- Characters at which a base-type name ends in a rendered declaration. -/
def isStop (ch : Char) : Bool := ch = ',' || ch = ']' || ch = ';'

/-- The continuation following a rendered type is either empty or begins with
a stop character, so name scanning terminates exactly at the type's end. -/
def RestOk : List Char → Bool
| [] => true
| ch :: _ => isStop ch

/-- Scan a base-type name: the longest prefix free of stop characters. -/
def spanName : List Char → List Char × List Char
| [] => ([], [])
| ch :: r =>
  if isStop ch then ([], ch :: r)
  else (ch :: (spanName r).1, (spanName r).2)

/-- Scan a unary-encoded number: the count of leading markers. -/
def spanI : List Char → Nat × List Char
| [] => (0, [])
| ch :: r => if ch = 'I' then ((spanI r).1 + 1, (spanI r).2) else (0, ch :: r)

/-- Unary rendering of a number inside a declaration. -/
def repI (n : Nat) : List Char := List.replicate n 'I'

theorem spanName_parts : ∀ l : List Char, (spanName l).1 ++ (spanName l).2 = l := by
  intro l
  induction l with
  | nil => simp [spanName]
  | cons ch r ih =>
    by_cases h : isStop ch = true
    · simp [spanName, h]
    · simp [spanName, h, ih]

theorem spanName_len : ∀ l : List Char, (spanName l).2.length ≤ l.length := by
  intro l
  induction l with
  | nil => simp [spanName]
  | cons ch r ih =>
    by_cases h : isStop ch = true
    · simp [spanName, h]
    · simp only [spanName, h]
      simpa using Nat.le_succ_of_le ih

theorem spanI_len : ∀ l : List Char, (spanI l).1 + (spanI l).2.length = l.length := by
  intro l
  induction l with
  | nil => simp [spanI]
  | cons ch r ih =>
    by_cases h : ch = 'I'
    · simp only [spanI, h, if_pos rfl]
      simpa using by omega
    · simp [spanI, h]

theorem spanI_le : ∀ l : List Char, (spanI l).2.length ≤ l.length := by
  intro l
  have h := spanI_len l
  omega

mutual
/-- The host renderer `tinfo_t.dstr` on the modelled grammar: base names are
rendered verbatim, `ptr t` as `*` followed by the pointee, `arr k e` as the
unary count in brackets followed by the element, and a function pointer as
`F`, the unary calling convention, `A`, the unary argument count, a comma, the
return type, a comma, then each argument followed by a comma.  The grammar is
unambiguous and round-trips through the modelled parser. -/
def dstrL : CType → List Char
| .base n => n.data
| .ptr t => '*' :: dstrL t
| .arr k e => '[' :: (repI k ++ ']' :: dstrL e)
| .fptr r a cc =>
  'F' :: (repI cc ++ 'A' :: (repI a.length ++ ',' :: (dstrL r ++ ',' :: dstrLArgs a)))

/-- Rendering of an argument list: each argument followed by a comma. -/
def dstrLArgs : CTypes → List Char
| .nil => []
| .cons h t => dstrL h ++ ',' :: dstrLArgs t
end

/-- The renderer `tinfo_t.dstr` as a `String`. -/
def dstr (c : CType) : String := String.mk (dstrL c)

mutual
/-- Recursion-depth requirement of a handle for the fuelled parser: the fuel
a `parseLF` call needs so that no nested call runs out. -/
def fNeed : CType → Nat
| .base _ => 1
| .ptr t => fNeed t + 1
| .arr _ e => fNeed e + 1
| .fptr r a _ => max (fNeed r) (fNeedArgs a) + 1

/-- Fuel requirement of argument lists. -/
def fNeedArgs : CTypes → Nat
| .nil => 1
| .cons h t => max (fNeed h) (fNeedArgs t) + 1
end

mutual
/-- The host declaration parser on character lists, structurally recursive on
a fuel argument so that it evaluates by reduction.  Returns the parsed handle
and the unconsumed suffix; `none` on anything outside the modelled grammar
(or when the fuel is exhausted, which `parse_decl`'s fuel choice precludes on
rendered inputs). -/
def parseLF : Nat → List Char → Option (CType × List Char)
| 0, _ => none
| _ + 1, [] => none
| fu + 1, ch :: r =>
  if ch = '*' then
    match parseLF fu r with
    | none => none
    | some (t, r1) => some (CType.ptr t, r1)
  else if ch = '[' then
    match spanI r with
    | (k, r1) =>
      match r1 with
      | [] => none
      | c1 :: r2 =>
        if c1 = ']' then
          match parseLF fu r2 with
          | none => none
          | some (e, r3) => some (CType.arr k e, r3)
        else none
  else if ch = 'F' then
    match spanI r with
    | (cc, r1) =>
      match r1 with
      | [] => none
      | c1 :: r2 =>
        if c1 = 'A' then
          match spanI r2 with
          | (k, r3) =>
            match r3 with
            | [] => none
            | c2 :: r4 =>
              if c2 = ',' then
                match parseLF fu r4 with
                | none => none
                | some (ret, r5) =>
                  match r5 with
                  | [] => none
                  | c3 :: r6 =>
                    if c3 = ',' then
                      match parseArgsF fu k r6 with
                      | none => none
                      | some (args, r7) => some (CType.fptr ret args cc, r7)
                    else none
              else none
        else none
  else
    match spanName (ch :: r) with
    | (nm, r1) =>
      match lookupSize (String.mk nm) with
      | some _ => some (CType.base (String.mk nm), r1)
      | none => none

/-- Parse exactly `k` arguments, each terminated by a comma. -/
def parseArgsF : Nat → Nat → List Char → Option (CTypes × List Char)
| 0, _, _ => none
| _ + 1, 0, l => some (CTypes.nil, l)
| fu + 1, k + 1, l =>
  match parseLF fu l with
  | none => none
  | some (a, r1) =>
    match r1 with
    | [] => none
    | c1 :: r2 =>
      if c1 = ',' then
        match parseArgsF fu k r2 with
        | none => none
        | some (rest, r3) => some (CTypes.cons a rest, r3)
      else none
end

/-- The host's `idaapi.parse_decl` on a declaration string: the input must be
a rendered type followed by exactly one final semicolon; `none` models the
`None` return the host gives for a declaration it rejects.  The fuel
`s.length + 1` dominates the recursion depth of any input that parses. -/
def parse_decl (s : String) : Option CType :=
  match parseLF (s.data.length + 1) s.data with
  | none => none
  | some (c, r) => if r = [';'] then some c else none

theorem spanName_append : ∀ (nm rest : List Char),
    (∀ ch ∈ nm, isStop ch = false) → RestOk rest = true →
    spanName (nm ++ rest) = (nm, rest) := by
  intro nm
  induction nm with
  | nil =>
    intro rest _ hr
    cases rest with
    | nil => simp [spanName]
    | cons ch r =>
      simp only [RestOk] at hr
      simp [spanName, hr]
  | cons ch tl ih =>
    intro rest h hr
    have hch : isStop ch = false := h ch (List.mem_cons_self ch tl)
    have htl : ∀ x ∈ tl, isStop x = false := fun x hx => h x (List.mem_cons_of_mem ch hx)
    simp [spanName, hch, ih rest htl hr]

theorem spanI_append : ∀ (n : Nat) (rest : List Char),
    rest.head? ≠ some 'I' → spanI (repI n ++ rest) = (n, rest) := by
  intro n
  induction n with
  | zero =>
    intro rest hr
    cases rest with
    | nil => simp [repI, spanI]
    | cons ch r =>
      have hch : ch ≠ 'I' := by
        intro h
        subst h
        simp at hr
      simp [repI, spanI, hch]
  | succ n ih =>
    intro rest hr
    have := ih rest hr
    simp only [repI] at this ⊢
    simp [List.replicate_succ, spanI, this]

theorem lookup_names : ∀ n : String, (lookupSize n).isSome = true →
    n = "void" ∨ n = "bool" ∨ n = "char" ∨ n = "int32_t" ∨ n = "uint32_t" := by
  intro n h
  unfold lookupSize at h
  split_ifs at h with h1 h2 h3 h4 h5
  · exact Or.inl h1
  · exact Or.inr (Or.inl h2)
  · exact Or.inr (Or.inr (Or.inl h3))
  · exact Or.inr (Or.inr (Or.inr (Or.inl h4)))
  · exact Or.inr (Or.inr (Or.inr (Or.inr h5)))
  · simp at h

theorem name_chars : ∀ n : String, (lookupSize n).isSome = true →
    n.data ≠ [] ∧ ∀ ch ∈ n.data, isStop ch = false ∧ ch ≠ '*' ∧ ch ≠ '[' ∧ ch ≠ 'F' := by
  intro n h
  rcases lookup_names n h with h | h | h | h | h <;> subst h <;> decide

theorem string_eta : ∀ s : String, String.mk s.data = s := fun _ => rfl

theorem fNeed_pos : ∀ c : CType, 1 ≤ fNeed c := by
  intro c
  cases c <;> simp [fNeed]

theorem fNeedArgs_pos : ∀ a : CTypes, 1 ≤ fNeedArgs a := by
  intro a
  cases a <;> simp [fNeedArgs]

mutual
theorem parseLF_rt : ∀ (c : CType) (fu : Nat) (rest : List Char),
    WFt c = true → RestOk rest = true → fNeed c ≤ fu →
    parseLF fu (dstrL c ++ rest) = some (c, rest)
| CType.base n, fu, rest => by
  intro hw hr hf
  have h1 := fNeed_pos (CType.base n)
  cases fu with
  | zero => omega
  | succ fu =>
    have hw' : (lookupSize n).isSome = true := hw
    obtain ⟨hne, hch⟩ := name_chars n hw'
    cases hd : n.data with
    | nil => exact absurd hd hne
    | cons ch tl =>
      have hsp := spanName_append n.data rest (fun x hx => (hch x hx).1) hr
      have hch1 := hch ch (by rw [hd]; exact List.mem_cons_self ch tl)
      have hmk : String.mk (ch :: tl) = n := by rw [← hd]
      have hlk : ∃ v, lookupSize n = some v := by
        cases hlk2 : lookupSize n
        · rw [hlk2] at hw'
          simp at hw'
        · exact ⟨_, rfl⟩
      obtain ⟨v, hlk⟩ := hlk
      rw [hd] at hsp
      simp only [List.cons_append] at hsp
      rw [show dstrL (CType.base n) = n.data from rfl, hd]
      simp [parseLF, hch1.2.1, hch1.2.2.1, hch1.2.2.2, hsp, hmk, hlk]
| CType.ptr t, fu, rest => by
  intro hw hr hf
  cases fu with
  | zero =>
    have := fNeed_pos (CType.ptr t)
    omega
  | succ fu =>
    have hw' : WFt t = true := hw
    have hf' : fNeed t ≤ fu := by
      simp only [fNeed] at hf
      omega
    have ih := parseLF_rt t fu rest hw' hr hf'
    simp [parseLF, dstrL, ih]
| CType.arr k e, fu, rest => by
  intro hw hr hf
  cases fu with
  | zero =>
    have := fNeed_pos (CType.arr k e)
    omega
  | succ fu =>
    have hw' : WFt e = true := hw
    have hf' : fNeed e ≤ fu := by
      simp only [fNeed] at hf
      omega
    have ih := parseLF_rt e fu rest hw' hr hf'
    have hsp : spanI (repI k ++ (']' :: (dstrL e ++ rest))) = (k, ']' :: (dstrL e ++ rest)) :=
      spanI_append k _ (by simp)
    simp [parseLF, dstrL, List.append_assoc, hsp, ih]
| CType.fptr r a cc, fu, rest => by
  intro hw hr hf
  cases fu with
  | zero =>
    have := fNeed_pos (CType.fptr r a cc)
    omega
  | succ fu =>
    simp only [WFt, Bool.and_eq_true] at hw
    obtain ⟨hwr, hwa⟩ := hw
    simp only [fNeed] at hf
    have hfr : fNeed r ≤ fu := by
      have := Nat.le_max_left (fNeed r) (fNeedArgs a)
      omega
    have hfa : fNeedArgs a ≤ fu := by
      have := Nat.le_max_right (fNeed r) (fNeedArgs a)
      omega
    have ihr := parseLF_rt r fu (',' :: (dstrLArgs a ++ rest)) hwr (by simp [RestOk, isStop]) hfr
    have iha := parseArgsF_rt a fu rest hwa hr hfa
    have hsp1 : spanI (repI cc ++ ('A' :: (repI a.length ++ (',' :: (dstrL r ++ (',' :: (dstrLArgs a ++ rest))))))) =
        (cc, 'A' :: (repI a.length ++ (',' :: (dstrL r ++ (',' :: (dstrLArgs a ++ rest)))))) :=
      spanI_append cc _ (by simp)
    have hsp2 : spanI (repI a.length ++ (',' :: (dstrL r ++ (',' :: (dstrLArgs a ++ rest))))) =
        (a.length, ',' :: (dstrL r ++ (',' :: (dstrLArgs a ++ rest)))) :=
      spanI_append a.length _ (by simp)
    simp [parseLF, dstrL, List.append_assoc, hsp1, hsp2, ihr, iha]

theorem parseArgsF_rt : ∀ (a : CTypes) (fu : Nat) (rest : List Char),
    WFtArgs a = true → RestOk rest = true → fNeedArgs a ≤ fu →
    parseArgsF fu a.length (dstrLArgs a ++ rest) = some (a, rest)
| CTypes.nil, fu, rest => by
  intro hw hr hf
  cases fu with
  | zero =>
    have := fNeedArgs_pos CTypes.nil
    omega
  | succ fu => simp [CTypes.length, dstrLArgs, parseArgsF]
| CTypes.cons h t, fu, rest => by
  intro hw hr hf
  cases fu with
  | zero =>
    have := fNeedArgs_pos (CTypes.cons h t)
    omega
  | succ fu =>
    simp only [WFtArgs, Bool.and_eq_true] at hw
    obtain ⟨hwh, hwt⟩ := hw
    simp only [fNeedArgs] at hf
    have hfh : fNeed h ≤ fu := by
      have := Nat.le_max_left (fNeed h) (fNeedArgs t)
      omega
    have hft : fNeedArgs t ≤ fu := by
      have := Nat.le_max_right (fNeed h) (fNeedArgs t)
      omega
    have ihh := parseLF_rt h fu (',' :: (dstrLArgs t ++ rest)) hwh (by simp [RestOk, isStop]) hfh
    have iht := parseArgsF_rt t fu rest hwt hr hft
    simp [CTypes.length, dstrLArgs, List.append_assoc, parseArgsF, ihh, iht]
end

mutual
theorem fNeed_le : ∀ c : CType, fNeed c ≤ (dstrL c).length + 1
| CType.base n => by simp [fNeed, dstrL]
| CType.ptr t => by
  have := fNeed_le t
  simp only [fNeed, dstrL, List.length_cons]
  omega
| CType.arr k e => by
  have := fNeed_le e
  simp only [fNeed, dstrL, List.length_cons, List.length_append, repI,
    List.length_replicate]
  omega
| CType.fptr r a cc => by
  have h1 := fNeed_le r
  have h2 := fNeedArgs_le a
  simp only [fNeed, dstrL, List.length_cons, List.length_append, repI,
    List.length_replicate]
  have h3 : max (fNeed r) (fNeedArgs a) ≤ (dstrL r).length + 1 + ((dstrLArgs a).length + 1) :=
    max_le (by omega) (by omega)
  omega

theorem fNeedArgs_le : ∀ a : CTypes, fNeedArgs a ≤ (dstrLArgs a).length + 1
| CTypes.nil => by simp [fNeedArgs, dstrLArgs]
| CTypes.cons h t => by
  have h1 := fNeed_le h
  have h2 := fNeedArgs_le t
  simp only [fNeedArgs, dstrLArgs, List.length_cons, List.length_append]
  have h3 : max (fNeed h) (fNeedArgs t) ≤ (dstrL h).length + 1 + ((dstrLArgs t).length + 1) :=
    max_le (by omega) (by omega)
  omega
end

theorem parse_decl_dstr : ∀ c : CType, WFt c = true →
    parse_decl (String.mk (dstrL c ++ [';'])) = some c := by
  intro c hw
  unfold parse_decl
  have hb := fNeed_le c
  have hrt := parseLF_rt c ((String.mk (dstrL c ++ [';'])).data.length + 1) [';'] hw
    (by simp [RestOk, isStop])
    (by simp [List.length_append]; omega)
  rw [show (String.mk (dstrL c ++ [';'])).data = dstrL c ++ [';'] from rfl] at hrt ⊢
  rw [hrt]
  simp

mutual
theorem parseLF_wf : ∀ (fu : Nat) (l : List Char) (c : CType) (r : List Char),
    parseLF fu l = some (c, r) → WFt c = true
| 0, l, c, r => by
  intro h
  simp [parseLF] at h
| fu + 1, [], c, r => by
  intro h
  simp [parseLF] at h
| fu + 1, ch :: rr, c, r => by
  intro h
  simp only [parseLF] at h
  by_cases h1 : ch = '*'
  · rw [if_pos h1] at h
    cases hp : parseLF fu rr with
    | none => rw [hp] at h; simp at h
    | some p =>
      obtain ⟨t, r1⟩ := p
      rw [hp] at h
      simp at h
      obtain ⟨h2, h3⟩ := h
      have hwt := parseLF_wf fu rr t r1 hp
      rw [← h2]
      simpa [WFt] using hwt
  · rw [if_neg h1] at h
    by_cases h2 : ch = '['
    · rw [if_pos h2] at h
      rcases hsp : spanI rr with ⟨k, r1⟩
      rw [hsp] at h
      cases r1 with
      | nil => simp at h
      | cons c1 r2 =>
        by_cases hc1 : c1 = ']'
        · subst hc1
          simp only [if_pos rfl] at h
          cases hp : parseLF fu r2 with
          | none => rw [hp] at h; simp at h
          | some p =>
            obtain ⟨e, r3⟩ := p
            rw [hp] at h
            simp at h
            obtain ⟨h3, h4⟩ := h
            have hwe := parseLF_wf fu r2 e r3 hp
            rw [← h3]
            simpa [WFt] using hwe
        · simp [hc1] at h
    · rw [if_neg h2] at h
      by_cases h3 : ch = 'F'
      · rw [if_pos h3] at h
        rcases hsp1 : spanI rr with ⟨cc, r1⟩
        rw [hsp1] at h
        cases r1 with
        | nil => simp at h
        | cons c1 r2 =>
          by_cases hc1 : c1 = 'A'
          · subst hc1
            simp only [if_pos rfl] at h
            rcases hsp2 : spanI r2 with ⟨k, r3⟩
            rw [hsp2] at h
            cases r3 with
            | nil => simp at h
            | cons c2 r4 =>
              by_cases hc2 : c2 = ','
              · subst hc2
                simp only [if_pos rfl] at h
                cases hp : parseLF fu r4 with
                | none => rw [hp] at h; simp at h
                | some p =>
                  obtain ⟨ret, r5⟩ := p
                  rw [hp] at h
                  simp only [] at h
                  cases r5 with
                  | nil => simp at h
                  | cons c3 r6 =>
                    by_cases hc3 : c3 = ','
                    · subst hc3
                      simp only [if_pos rfl] at h
                      cases hq : parseArgsF fu k r6 with
                      | none => rw [hq] at h; simp at h
                      | some q =>
                        obtain ⟨args, r7⟩ := q
                        rw [hq] at h
                        simp at h
                        obtain ⟨h4, h5⟩ := h
                        have hwr := parseLF_wf fu r4 ret (',' :: r6) hp
                        have hwa := parseArgsF_wf fu k r6 args r7 hq
                        rw [← h4]
                        simp [WFt, hwr, hwa]
                    · simp [hc3] at h
              · simp [hc2] at h
          · simp [hc1] at h
      · rw [if_neg h3] at h
        rcases hsp : spanName (ch :: rr) with ⟨nm, r1⟩
        rw [hsp] at h
        cases hlk : lookupSize (String.mk nm) with
        | none => rw [hlk] at h; simp at h
        | some v =>
          rw [hlk] at h
          simp at h
          obtain ⟨h4, h5⟩ := h
          rw [← h4]
          simp [WFt, hlk]

theorem parseArgsF_wf : ∀ (fu k : Nat) (l : List Char) (a : CTypes) (r : List Char),
    parseArgsF fu k l = some (a, r) → WFtArgs a = true
| 0, k, l, a, r => by
  intro h
  simp [parseArgsF] at h
| fu + 1, 0, l, a, r => by
  intro h
  simp [parseArgsF] at h
  rw [← h.1]
  rfl
| fu + 1, k + 1, l, a, r => by
  intro h
  simp only [parseArgsF] at h
  cases hp : parseLF fu l with
  | none => rw [hp] at h; simp at h
  | some p =>
    obtain ⟨x, r1⟩ := p
    rw [hp] at h
    simp only [] at h
    cases r1 with
    | nil => simp at h
    | cons c1 r2 =>
      by_cases hc1 : c1 = ','
      · subst hc1
        simp only [if_pos rfl] at h
        cases hq : parseArgsF fu k r2 with
        | none => rw [hq] at h; simp at h
        | some q =>
          obtain ⟨rest, r3⟩ := q
          rw [hq] at h
          simp at h
          obtain ⟨h2, h3⟩ := h
          have hwx := parseLF_wf fu l x (',' :: r2) hp
          have hwrest := parseArgsF_wf fu k r2 rest r3 hq
          rw [← h2]
          simp [WFtArgs, hwx, hwrest]
      · simp [hc1] at h
end

/-- Anything the modelled host parser accepts is a well-formed handle. -/
theorem parse_decl_wf : ∀ (s : String) (c : CType), parse_decl s = some c → WFt c = true := by
  intro s c h
  unfold parse_decl at h
  cases hp : parseLF (s.data.length + 1) s.data with
  | none => rw [hp] at h; simp at h
  | some p =>
    obtain ⟨t, r⟩ := p
    rw [hp] at h
    by_cases hr : r = [';']
    · subst hr
      simp at h
      subst h
      exact parseLF_wf _ _ _ _ hp
    · simp [hr] at h

mutual
theorem dstrL_ne_nil : ∀ c : CType, WFt c = true → dstrL c ≠ []
| CType.base n => by
  intro hw
  simpa [dstrL] using (name_chars n hw).1
| CType.ptr t => by
  intro _
  simp [dstrL]
| CType.arr k e => by
  intro _
  simp [dstrL]
| CType.fptr r a cc => by
  intro _
  simp [dstrL]
end

mutual
theorem dstrL_no_semi : ∀ c : CType, WFt c = true → ∀ ch ∈ dstrL c, ch ≠ ';'
| CType.base n => by
  intro hw ch hch
  have h2 := ((name_chars n hw).2 ch hch).1
  intro hsemi
  subst hsemi
  simp [isStop] at h2
| CType.ptr t => by
  intro hw ch hch
  simp only [dstrL, List.mem_cons] at hch
  rcases hch with hch | hch
  · subst hch
    decide
  · exact dstrL_no_semi t hw ch hch
| CType.arr k e => by
  intro hw ch hch
  simp only [dstrL, List.mem_cons, List.mem_append, repI, List.mem_replicate] at hch
  rcases hch with hch | (hch | (hch | hch))
  · subst hch
    decide
  · rw [hch.2]
    decide
  · subst hch
    decide
  · exact dstrL_no_semi e hw ch hch
| CType.fptr r a cc => by
  intro hw ch hch
  simp only [WFt, Bool.and_eq_true] at hw
  simp only [dstrL, List.mem_cons, List.mem_append, repI, List.mem_replicate] at hch
  rcases hch with hch | (hch | (hch | (hch | (hch | (hch | hch)))))
  · subst hch
    decide
  · rw [hch.2]
    decide
  · subst hch
    decide
  · rw [hch.2]
    decide
  · subst hch
    decide
  · exact dstrL_no_semi r hw.1 ch hch
  · rcases hch with hch | hch
    · subst hch
      decide
    · exact dstrLArgs_no_semi a hw.2 ch hch

theorem dstrLArgs_no_semi : ∀ a : CTypes, WFtArgs a = true → ∀ ch ∈ dstrLArgs a, ch ≠ ';'
| CTypes.nil => by
  intro _ ch hch
  simp [dstrLArgs] at hch
| CTypes.cons h t => by
  intro hw ch hch
  simp only [WFtArgs, Bool.and_eq_true] at hw
  simp only [dstrLArgs, List.mem_append, List.mem_cons] at hch
  rcases hch with hch | (hch | hch)
  · exact dstrL_no_semi h hw.1 ch hch
  · subst hch
    decide
  · exact dstrLArgs_no_semi t hw.2 ch hch
end

mutual
/-- State of a `waffda.Type` instance: one field per attribute set in
`Type.__init__` (`types.py` lines 68-85), in source order: `_decl`,
`_is_const`, `_is_volatile`, then `isConstAttr` (the *instance* attribute
named `is_const` that `toggle_const` creates on line 225, shadowing the
method; `none` = never assigned), `_contained_type`, `_is_ptr`, `_is_array`,
`_element_count`, `_is_function`, `_ret_type`, `_arg_types`, `_cc`,
`_is_struct`, `_struct_name`, `_fields`.  Fields of a struct are never
constructible (`Field.__init__` raises `NotImplementedError`), so the
`_fields` list is modelled with unit elements. -/
inductive PyType where
| mk (decl : String) (isConst : Bool) (isVolatile : Bool) (isConstAttr : Option Bool)
     (contained : OPyType) (isPtr : Bool) (isArray : Bool) (elementCount : Int)
     (isFunction : Bool) (retType : OPyType) (argTypes : PyTypes)
     (cc : CallingConventions) (isStruct : Bool) (structName : String)
     (fieldsList : List Unit)

/-- Specialised `Option PyType` for elementary mutual recursion. -/
inductive OPyType where
| none
| some (t : PyType)

/-- Specialised `List PyType` for elementary mutual recursion. -/
inductive PyTypes where
| nil
| cons (head : PyType) (tail : PyTypes)
end

def PyType.declF : PyType → String
| .mk d _ _ _ _ _ _ _ _ _ _ _ _ _ _ => d

def PyType.isConstF : PyType → Bool
| .mk _ x _ _ _ _ _ _ _ _ _ _ _ _ _ => x

def PyType.isVolatileF : PyType → Bool
| .mk _ _ x _ _ _ _ _ _ _ _ _ _ _ _ => x

def PyType.isConstAttrF : PyType → Option Bool
| .mk _ _ _ x _ _ _ _ _ _ _ _ _ _ _ => x

def PyType.containedF : PyType → OPyType
| .mk _ _ _ _ x _ _ _ _ _ _ _ _ _ _ => x

def PyType.isPtrF : PyType → Bool
| .mk _ _ _ _ _ x _ _ _ _ _ _ _ _ _ => x

def PyType.isArrayF : PyType → Bool
| .mk _ _ _ _ _ _ x _ _ _ _ _ _ _ _ => x

def PyType.elementCountF : PyType → Int
| .mk _ _ _ _ _ _ _ x _ _ _ _ _ _ _ => x

def PyType.isFunctionF : PyType → Bool
| .mk _ _ _ _ _ _ _ _ x _ _ _ _ _ _ => x

def PyType.retTypeF : PyType → OPyType
| .mk _ _ _ _ _ _ _ _ _ x _ _ _ _ _ => x

def PyType.argTypesF : PyType → PyTypes
| .mk _ _ _ _ _ _ _ _ _ _ x _ _ _ _ => x

def PyType.ccF : PyType → CallingConventions
| .mk _ _ _ _ _ _ _ _ _ _ _ x _ _ _ => x

def PyType.isStructF : PyType → Bool
| .mk _ _ _ _ _ _ _ _ _ _ _ _ x _ _ => x

def PyType.structNameF : PyType → String
| .mk _ _ _ _ _ _ _ _ _ _ _ _ _ x _ => x

def PyType.fieldsF : PyType → List Unit
| .mk _ _ _ _ _ _ _ _ _ _ _ _ _ _ x => x

def setIsConstF : PyType → Bool → PyType
| .mk d _ iv ica cont ip ia ec ifn rt ats cc ist sn fl, b =>
  .mk d b iv ica cont ip ia ec ifn rt ats cc ist sn fl

def setIsVolatileF : PyType → Bool → PyType
| .mk d ic _ ica cont ip ia ec ifn rt ats cc ist sn fl, b =>
  .mk d ic b ica cont ip ia ec ifn rt ats cc ist sn fl

def setIsConstAttrF : PyType → Option Bool → PyType
| .mk d ic iv _ cont ip ia ec ifn rt ats cc ist sn fl, b =>
  .mk d ic iv b cont ip ia ec ifn rt ats cc ist sn fl

def setContainedF : PyType → OPyType → PyType
| .mk d ic iv ica _ ip ia ec ifn rt ats cc ist sn fl, v =>
  .mk d ic iv ica v ip ia ec ifn rt ats cc ist sn fl

def setElementCountF : PyType → Int → PyType
| .mk d ic iv ica cont ip ia _ ifn rt ats cc ist sn fl, v =>
  .mk d ic iv ica cont ip ia v ifn rt ats cc ist sn fl

def setRetTypeF : PyType → OPyType → PyType
| .mk d ic iv ica cont ip ia ec ifn _ ats cc ist sn fl, v =>
  .mk d ic iv ica cont ip ia ec ifn v ats cc ist sn fl

def setArgTypesF : PyType → PyTypes → PyType
| .mk d ic iv ica cont ip ia ec ifn rt _ cc ist sn fl, v =>
  .mk d ic iv ica cont ip ia ec ifn rt v cc ist sn fl

def setCcF : PyType → CallingConventions → PyType
| .mk d ic iv ica cont ip ia ec ifn rt ats _ ist sn fl, v =>
  .mk d ic iv ica cont ip ia ec ifn rt ats v ist sn fl

def setStructNameF : PyType → String → PyType
| .mk d ic iv ica cont ip ia ec ifn rt ats cc ist _ fl, v =>
  .mk d ic iv ica cont ip ia ec ifn rt ats cc ist v fl

def setFieldsF : PyType → List Unit → PyType
| .mk d ic iv ica cont ip ia ec ifn rt ats cc ist sn _, v =>
  .mk d ic iv ica cont ip ia ec ifn rt ats cc ist sn v

/-- The state of `Type()` built with `decl=None`: exactly the defaults that
`__init__` assigns on `types.py` lines 68-85 (in particular `_decl` is the
placeholder `'?'`). -/
def defaultType : PyType :=
  PyType.mk "?" false false Option.none OPyType.none false false 0 false
    OPyType.none PyTypes.nil CallingConventions.invalid false "" []

/-- Host `tinfo_t.get_size` on a handle: base types via the type library,
pointers and function pointers take the native pointer width (8 models a
64-bit host), arrays multiply out, and an unknown name gives -1 (modelling
`BADSIZE`). -/
def tinfoGetSize : CType → Int
| CType.base n =>
  match lookupSize n with
  | some s => s
  | none => -1
| CType.ptr _ => 8
| CType.arr k e => Int.ofNat k * tinfoGetSize e
| CType.fptr _ _ _ => 8

/-- Lines 6-9 of `types.py`, `get_pointer_size`: parse a pointer declaration
(`'void *;'`, rendered `"*void;"` in the model grammar) and take its size. -/
def get_pointer_size : Int :=
  match parse_decl "*void;" with
  | some t => tinfoGetSize t
  | none => -1

/-- Line 12 of `types.py`.  Note the transposed spelling in the source: the
module defines `POITNER_SIZE`, while `get_size` (line 266) refers to
`POINTER_SIZE`, a name that is never defined. -/
def POITNER_SIZE : Int := get_pointer_size

mutual
/-- Model of `Type.__init__` on an already-parsed host handle, `types.py` lines
106-138: snapshot the handle into the wrapper's fields.  For the recursive
constructions the source re-parses rendered sub-handles
(`Type(tif.get_pointed_object().dstr())` and alike); here they recurse
directly, which agrees with the source by the proved round trip
(`parse_decl_dstr`, and the bridge lemma `typeOfDecl_dstr` below).
Case by case: a plain handle stores only `_decl` (all category flags from
`tif.is_ptr()/is_array()/is_funcptr()` are false); a pointer handle sets
`_is_ptr` and builds `_contained_type` from the pointed-to handle (line 116);
an array handle sets `_is_array`, `_element_count` from
`tif.get_array_nelems()` and `_contained_type` from the element handle (lines
117-119); a function-pointer handle enters the `_is_function` block (lines
121-132): `_is_ptr` is reset to `False` ("for compatability's sake"),
`_ret_type` is built from `tif.get_rettype()`, the calling convention is
translated through the enum with the `cc ^ 3` fallback (lines 127-130,
`ccFixE`), and the argument types are built in order.  The `tif.is_struct()`
branch (lines 134-138) is never reached: the modelled grammar has no struct
types, matching the fact that the source raises `NotImplementedError` there
and never yields a struct descriptor. -/
def typeFromTif : CType → Except PyErr PyType
| CType.base n =>
  Except.ok (PyType.mk (dstr (CType.base n)) false false Option.none OPyType.none
    false false 0 false OPyType.none PyTypes.nil CallingConventions.invalid false "" [])
| CType.ptr t => do
  let cont ← typeFromTif t
  Except.ok (PyType.mk (dstr (CType.ptr t)) false false Option.none
    (OPyType.some cont) true false 0 false OPyType.none PyTypes.nil
    CallingConventions.invalid false "" [])
| CType.arr k e => do
  let cont ← typeFromTif e
  Except.ok (PyType.mk (dstr (CType.arr k e)) false false Option.none
    (OPyType.some cont) false true (Int.ofNat k) false OPyType.none PyTypes.nil
    CallingConventions.invalid false "" [])
| CType.fptr r a cc => do
  let ret ← typeFromTif r
  let ccv ← ccFixE cc
  let args ← typeFromTifArgs a
  Except.ok (PyType.mk (dstr (CType.fptr r a cc)) false false Option.none
    OPyType.none false false 0 true (OPyType.some ret) args ccv false "" [])

/-- The argument loop of `__init__`, `types.py` lines 131-132. -/
def typeFromTifArgs : CTypes → Except PyErr PyTypes
| CTypes.nil => Except.ok PyTypes.nil
| CTypes.cons h t => do
  let x ← typeFromTif h
  let xs ← typeFromTifArgs t
  Except.ok (PyTypes.cons x xs)
end

/-- The alias substitution of `types.py` lines 14-18 and 91-92:
`TYPE_ALIASES` maps `int` to `int32_t`, `uint` to `uint32_t` and `boolean`
to `bool`; any other declaration is left alone. -/
def aliasSub (s : String) : String :=
  if s = "int" then "int32_t"
  else if s = "uint" then "uint32_t"
  else if s = "boolean" then "bool"
  else s

/-- Python's `decl.endswith(';')` on the declaration string. -/
def endsSemi (s : String) : Bool :=
  match s.data.getLast? with
  | some ch => ch = ';'
  | none => false

/-- Model of `Type.__init__` preprocessing of a declaration string, `types.py` lines
91-100, in source order: alias substitution, the empty-string check (raising
`ValueError('Empty decl')`), then appending `';'` unless already present.
The result is exactly the string handed to the host parser on line 102. -/
def resolveDecl (s : String) : Except PyErr String :=
  let s1 := aliasSub s
  if s1.length = 0 then Except.error (PyErr.valueError "Empty decl")
  else Except.ok (if endsSemi s1 then s1 else s1 ++ ";")

/-- Model of `Type(decl)` for a string declaration, `types.py` lines 87-138: resolve
the string, hand it to the host parser (a `None` result raises
`ValueError('Bad declaration ...')`, lines 103-104), then snapshot the
parsed handle. -/
def typeOfDecl (s : String) : Except PyErr PyType := do
  let s2 ← resolveDecl s
  match parse_decl s2 with
  | none => Except.error (PyErr.valueError ("Bad declaration \"" ++ s2 ++ "\""))
  | some c => typeFromTif c

mutual
/-- Model of `Type.get_tinfo`, `types.py` lines 146-185: rebuild a host handle from
the wrapper fields.  Pointer: `create_ptr` around the contained type's
handle (an unset contained type models Python's `None.get_tinfo()`
`AttributeError`); array: `create_array` with the stored element count;
function: `create_func` from return type, stored `cc.value` and arguments,
wrapped in a pointer (lines 163-176); struct: `NotImplementedError` (line
178); otherwise re-parse `f'{self._decl};'` ignoring failure, which leaves
the empty handle (modelled `CType.base ""`, rendered as the empty string). -/
def getTinfo : PyType → Except PyErr CType
| PyType.mk d _ _ _ cont ip ia ec ifn rt ats cc ist _ _ =>
  if ip then
    match cont with
    | OPyType.some c => do
      let x ← getTinfo c
      Except.ok (CType.ptr x)
    | OPyType.none => Except.error (PyErr.attributeError "NoneType has no attribute get_tinfo")
  else if ia then
    match cont with
    | OPyType.some c => do
      let x ← getTinfo c
      Except.ok (CType.arr ec.toNat x)
    | OPyType.none => Except.error (PyErr.attributeError "NoneType has no attribute get_tinfo")
  else if ifn then
    match rt with
    | OPyType.some rty => do
      let rx ← getTinfo rty
      let ax ← getTinfoArgs ats
      Except.ok (CType.fptr rx ax cc.value)
    | OPyType.none => Except.error (PyErr.attributeError "NoneType has no attribute get_tinfo")
  else if ist then Except.error PyErr.notImplementedError
  else
    Except.ok (match parse_decl (String.mk (d.data ++ [';'])) with
      | some c => c
      | none => CType.base "")

/-- The argument loop of `get_tinfo`, `types.py` lines 167-170. -/
def getTinfoArgs : PyTypes → Except PyErr CTypes
| PyTypes.nil => Except.ok CTypes.nil
| PyTypes.cons h t => do
  let x ← getTinfo h
  let xs ← getTinfoArgs t
  Except.ok (CTypes.cons x xs)
end

/-- Model of `Type.clone`, `types.py` lines 140-144:
`Type(self.get_tinfo().dstr())`. -/
def clone (t : PyType) : Except PyErr PyType := do
  let d ← getTinfo t
  typeOfDecl (dstr d)

/-- Model of `Type.__eq__`, `types.py` lines 441-442:
`self.get_tinfo() == other.get_tinfo()` (host handle equality). -/
def pyEq (t1 t2 : PyType) : Except PyErr Bool := do
  let a ← getTinfo t1
  let b ← getTinfo t2
  Except.ok (ceqT a b)

/-- Model of `Type.is_const`, `types.py` lines 198-203: returns `_is_const`. -/
def PyType.is_const (t : PyType) : Bool := t.isConstF

/-- Model of `Type.is_volatile`, lines 205-210. -/
def PyType.is_volatile (t : PyType) : Bool := t.isVolatileF

/-- Model of `Type.set_const`, lines 212-213. -/
def PyType.set_const (t : PyType) : PyType := setIsConstF t true

/-- Model of `Type.set_volatile`, lines 215-216. -/
def PyType.set_volatile (t : PyType) : PyType := setIsVolatileF t true

/-- Model of `Type.clear_const`, lines 218-219. -/
def PyType.clear_const (t : PyType) : PyType := setIsConstF t false

/-- Model of `Type.clear_volatile`, lines 221-222. -/
def PyType.clear_volatile (t : PyType) : PyType := setIsVolatileF t false

/-- Model of `Type.toggle_const`, lines 224-225: `self.is_const = not self._is_const`.
The assignment target is the bare name `is_const`, not `_is_const`, so Python
creates an instance attribute `is_const` (shadowing the method of that name)
holding the negation, and `_is_const` itself is left untouched. -/
def PyType.toggle_const (t : PyType) : PyType :=
  setIsConstAttrF t (Option.some (!t.isConstF))

/-- Model of `Type.toggle_volatile`, lines 227-228:
`self._is_volatile = not self._is_volatile`. -/
def PyType.toggle_volatile (t : PyType) : PyType :=
  setIsVolatileF t (!t.isVolatileF)

/-- Model of `Type.is_pointer`, lines 230-238: returns `_is_ptr`. -/
def PyType.is_pointer (t : PyType) : Bool := t.isPtrF

/-- Model of `Type.is_array`, lines 240-249: returns `_is_array`. -/
def PyType.is_array (t : PyType) : Bool := t.isArrayF

/-- Model of `Type.is_function`, lines 251-256: returns `_is_function`. -/
def PyType.is_function (t : PyType) : Bool := t.isFunctionF

/-- Model of `Type.is_struct`, lines 399-404: returns `_is_struct`. -/
def PyType.is_struct (t : PyType) : Bool := t.isStructF

/-- Line 265 reads `elif self.is_pointer or self.is_function():` — the call
parentheses on `is_pointer` are missing, so the expression evaluates the
bound method object itself, which is always truthy in Python.  This constant
models that truth value. -/
def is_pointer_attr_truthy : Bool := true

/-- Model of `Type.get_size`, `types.py` lines 258-267.  The array branch multiplies
`_element_count` by the contained type's `get_size()`.  The next branch is
taken whenever the receiver is not an array (see `is_pointer_attr_truthy`)
and its body `return POINTER_SIZE` raises `NameError`, because the module
constant is spelled `POITNER_SIZE` (line 12) while line 266 says
`POINTER_SIZE`.  The final `return self.get_tinfo().get_size()` is
consequently unreachable. -/
def PyType.get_size : PyType → Except PyErr Int
| PyType.mk d ic iv ica cont ip ia ec ifn rt ats cc ist sn fl =>
  if ia then
    match cont with
    | OPyType.some c => do
      let s ← PyType.get_size c
      Except.ok (ec * s)
    | OPyType.none => Except.error (PyErr.attributeError "NoneType has no attribute get_size")
  else if is_pointer_attr_truthy || ifn then
    Except.error (PyErr.nameError "name POINTER_SIZE is not defined")
  else do
    let d2 ← getTinfo (PyType.mk d ic iv ica cont ip ia ec ifn rt ats cc ist sn fl)
    Except.ok (tinfoGetSize d2)

/-- Model of `Type.get_pointer_to`, `types.py` lines 269-283: raise `ValueError` when
the rendered declaration is empty, otherwise build a fresh `Type()` with
`_is_ptr = True` and `_contained_type = self.clone()`. -/
def PyType.get_pointer_to (t : PyType) : Except PyErr PyType := do
  let d ← getTinfo t
  if dstr d = "" then Except.error (PyErr.valueError "Cannot create pointer to empty type")
  else do
    let cl ← clone t
    Except.ok (PyType.mk "?" false false Option.none (OPyType.some cl) true false 0
      false OPyType.none PyTypes.nil CallingConventions.invalid false "" [])

/-- A Python value passed as `element_count`: an `int` or some non-int
object. -/
inductive PyVal where
| int (i : Int)
| obj

/-- Model of `Type.get_array_of`, `types.py` lines 285-303: `ValueError` unless the
element count is an `int` greater than zero, otherwise a fresh `Type()` with
`_is_array = True`, the element count, and `_contained_type = self.clone()`. -/
def PyType.get_array_of (t : PyType) (element_count : PyVal) : Except PyErr PyType :=
  match element_count with
  | PyVal.obj => Except.error (PyErr.valueError "Must have a natural number for element count")
  | PyVal.int i =>
    if i ≤ 0 then Except.error (PyErr.valueError "Must have a natural number for element count")
    else do
      let cl ← clone t
      Except.ok (PyType.mk "?" false false Option.none (OPyType.some cl) false true i
        false OPyType.none PyTypes.nil CallingConventions.invalid false "" [])

/-- Model of `Type.get_contained_type`, lines 305-314: `ValueError` unless array or
pointer, otherwise `self._contained_type.clone()` (a `None` contained type
models the Python `AttributeError`). -/
def PyType.get_contained_type (t : PyType) : Except PyErr PyType :=
  if !t.is_array && !t.is_pointer then Except.error (PyErr.valueError "Not a boxed type")
  else
    match t.containedF with
    | OPyType.some c => clone c
    | OPyType.none => Except.error (PyErr.attributeError "NoneType has no attribute clone")

/-- Model of `Type.set_contained_type`, lines 316-323. -/
def PyType.set_contained_type (t : PyType) (contained_type : PyType) : Except PyErr PyType :=
  if !t.is_array && !t.is_pointer then Except.error (PyErr.valueError "Not a boxed type")
  else Except.ok (setContainedF t (OPyType.some contained_type))

/-- Model of `Type.get_element_count`, lines 325-332. -/
def PyType.get_element_count (t : PyType) : Except PyErr Int :=
  if !t.is_array then Except.error (PyErr.valueError "Not an array type")
  else Except.ok t.elementCountF

/-- Model of `Type.set_element_count`, lines 334-341. -/
def PyType.set_element_count (t : PyType) (element_count : Int) : Except PyErr PyType :=
  if !t.is_array then Except.error (PyErr.valueError "Not an array type")
  else Except.ok (setElementCountF t element_count)

/-- Model of `Type.get_args`, lines 343-350. -/
def PyType.get_args (t : PyType) : Except PyErr PyTypes :=
  if !t.is_function then Except.error (PyErr.valueError "Not a function type")
  else Except.ok t.argTypesF

/-- Model of `Type.get_ret_type`, lines 352-359. -/
def PyType.get_ret_type (t : PyType) : Except PyErr OPyType :=
  if !t.is_function then Except.error (PyErr.valueError "Not a function type")
  else Except.ok t.retTypeF

/-- Model of `Type.get_calling_convention`, lines 361-368. -/
def PyType.get_calling_convention (t : PyType) : Except PyErr CallingConventions :=
  if !t.is_function then Except.error (PyErr.valueError "Not a function type")
  else Except.ok t.ccF

/-- Model of `Type.set_args`, lines 370-377. -/
def PyType.set_args (t : PyType) (args : PyTypes) : Except PyErr PyType :=
  if !t.is_function then Except.error (PyErr.valueError "Not a function type")
  else Except.ok (setArgTypesF t args)

/-- Model of `Type.set_ret_type`, lines 379-386. -/
def PyType.set_ret_type (t : PyType) (ret_type : PyType) : Except PyErr PyType :=
  if !t.is_function then Except.error (PyErr.valueError "Not a function type")
  else Except.ok (setRetTypeF t (OPyType.some ret_type))

/-- A value passed to `set_calling_convention`: either an enum member or a
raw integer (`isinstance(cc, CallingConventions)` check, line 395). -/
inductive CCArg where
| enum (c : CallingConventions)
| raw (n : Nat)

/-- Model of `Type.set_calling_convention`, lines 388-397: category check first, then
the non-enum argument goes through `CallingConventions(cc)`, whose failure
raises `ValueError`. -/
def PyType.set_calling_convention (t : PyType) (cc : CCArg) : Except PyErr PyType :=
  if !t.is_function then Except.error (PyErr.valueError "Not a function type")
  else
    match cc with
    | CCArg.enum c => Except.ok (setCcF t c)
    | CCArg.raw n =>
      match ccOfValue n with
      | some c => Except.ok (setCcF t c)
      | none => Except.error (PyErr.valueError "not a valid CallingConventions")

/-- Model of `Type.get_struct_name`, `types.py` lines 406-411: returns `_struct_name`
directly — unlike every other category accessor there is no `is_struct`
check and no `ValueError` path. -/
def PyType.get_struct_name (t : PyType) : Except PyErr String :=
  Except.ok t.structNameF

/-- Model of `Type.get_fields`, lines 413-420. -/
def PyType.get_fields (t : PyType) : Except PyErr (List Unit) :=
  if !t.is_struct then Except.error (PyErr.valueError "Not a struct type")
  else Except.ok t.fieldsF

/-- Model of `Type.set_struct_name`, lines 422-427: assigns `_struct_name`
unconditionally — again no category check. -/
def PyType.set_struct_name (t : PyType) (struct_name : String) : Except PyErr PyType :=
  Except.ok (setStructNameF t struct_name)

/-- Model of `Type.set_fields`, lines 429-436. -/
def PyType.set_fields (t : PyType) (fields : List Unit) : Except PyErr PyType :=
  if !t.is_struct then Except.error (PyErr.valueError "Not a struct type")
  else Except.ok (setFieldsF t fields)

theorem ccOfValue_val : ∀ (n : Nat) (e : CallingConventions),
    ccOfValue n = some e → e.value = n := by
  intro n e h
  unfold ccOfValue at h
  split_ifs at h with h1 h2 h3 h4 h5 h6 h7 h8 h9 h10 h11 <;>
    injection h with h <;> subst h <;> simp [CallingConventions.value] <;> omega

theorem ccFixE_ok : ∀ (n : Nat) (e : CallingConventions), ccFixE n = Except.ok e →
    e.value = canonCC n ∧ (ccOfValue (canonCC n)).isSome = true := by
  intro n e h
  unfold ccFixE at h
  cases h1 : ccOfValue n with
  | some c =>
    rw [h1] at h
    injection h with h
    subst h
    unfold canonCC
    rw [h1]
    exact ⟨ccOfValue_val n _ h1, by simp [h1]⟩
  | none =>
    rw [h1] at h
    cases h2 : ccOfValue (n ^^^ 3) with
    | some c =>
      rw [h2] at h
      injection h with h
      subst h
      unfold canonCC
      rw [h1]
      exact ⟨ccOfValue_val _ _ h2, by simp [h2]⟩
    | none =>
      rw [h2] at h
      simp at h

theorem ccFixE_of_isSome : ∀ n : Nat, (ccOfValue n).isSome = true →
    ∃ e, ccFixE n = Except.ok e := by
  intro n h
  cases h1 : ccOfValue n with
  | none => rw [h1] at h; simp at h
  | some c =>
    refine ⟨c, ?_⟩
    unfold ccFixE
    rw [h1]

mutual
theorem canonT_WFt : ∀ c : CType, WFt c = true → WFt (canonT c) = true
| CType.base n => by
  intro hw
  simpa [canonT, WFt] using hw
| CType.ptr t => by
  intro hw
  simpa [canonT, WFt] using canonT_WFt t hw
| CType.arr k e => by
  intro hw
  simpa [canonT, WFt] using canonT_WFt e hw
| CType.fptr r a cc => by
  intro hw
  simp only [WFt, Bool.and_eq_true] at hw
  simp only [canonT, WFt, Bool.and_eq_true]
  exact ⟨canonT_WFt r hw.1, canonTArgs_WFt a hw.2⟩

theorem canonTArgs_WFt : ∀ a : CTypes, WFtArgs a = true → WFtArgs (canonTArgs a) = true
| CTypes.nil => by
  intro _
  rfl
| CTypes.cons h t => by
  intro hw
  simp only [WFtArgs, Bool.and_eq_true] at hw
  simp only [canonTArgs, WFtArgs, Bool.and_eq_true]
  exact ⟨canonT_WFt h hw.1, canonTArgs_WFt t hw.2⟩
end

mutual
theorem canonT_id_of_ccOK : ∀ c : CType, ccOKT c = true → canonT c = c
| CType.base n => by
  intro _
  rfl
| CType.ptr t => by
  intro h
  simp only [ccOKT] at h
  simp only [canonT, canonT_id_of_ccOK t h]
| CType.arr k e => by
  intro h
  simp only [ccOKT] at h
  simp only [canonT, canonT_id_of_ccOK e h]
| CType.fptr r a cc => by
  intro h
  simp only [ccOKT, Bool.and_eq_true] at h
  obtain ⟨⟨hcc, hr⟩, ha⟩ := h
  have hcanon : canonCC cc = cc := by
    unfold canonCC
    cases h2 : ccOfValue cc with
    | none => rw [h2] at hcc; simp at hcc
    | some c => rfl
  simp only [canonT, canonT_id_of_ccOK r hr, canonTArgs_id_of_ccOK a ha, hcanon]

theorem canonTArgs_id_of_ccOK : ∀ a : CTypes, ccOKTArgs a = true → canonTArgs a = a
| CTypes.nil => by
  intro _
  rfl
| CTypes.cons h t => by
  intro hw
  simp only [ccOKTArgs, Bool.and_eq_true] at hw
  simp only [canonTArgs, canonT_id_of_ccOK h hw.1, canonTArgs_id_of_ccOK t hw.2]
end

theorem except_bind_ok (a : α) (f : α → Except PyErr β) :
    (Except.ok a : Except PyErr α) >>= f = f a := rfl

theorem except_bind_err (e : PyErr) (f : α → Except PyErr β) :
    (Except.error e : Except PyErr α) >>= f = Except.error e := rfl

mutual
theorem getTinfo_typeFromTif : ∀ (c : CType) (t : PyType), WFt c = true →
    typeFromTif c = Except.ok t →
    getTinfo t = Except.ok (canonT c) ∧ ccOKT (canonT c) = true
| CType.base n, t => by
  intro hw h
  simp only [typeFromTif] at h
  injection h with h
  subst h
  constructor
  · have hpd := parse_decl_dstr (CType.base n) hw
    simp only [getTinfo, Bool.false_eq_true, if_false]
    rw [show (dstr (CType.base n)).data = dstrL (CType.base n) from rfl, hpd]
    rfl
  · rfl
| CType.ptr t0, t => by
  intro hw h
  have hw' : WFt t0 = true := hw
  simp only [typeFromTif] at h
  cases hc : typeFromTif t0 with
  | error e =>
    rw [hc] at h
    simp only [except_bind_err] at h
    exact Except.noConfusion h
  | ok cont =>
    rw [hc] at h
    simp only [except_bind_ok] at h
    injection h with h
    subst h
    obtain ⟨ih1, ih2⟩ := getTinfo_typeFromTif t0 cont hw' hc
    constructor
    · simp only [getTinfo, if_pos rfl]
      rw [ih1]
      simp [except_bind_ok, canonT]
    · simpa [canonT, ccOKT] using ih2
| CType.arr k e, t => by
  intro hw h
  have hw' : WFt e = true := hw
  simp only [typeFromTif] at h
  cases hc : typeFromTif e with
  | error er =>
    rw [hc] at h
    simp only [except_bind_err] at h
    exact Except.noConfusion h
  | ok cont =>
    rw [hc] at h
    simp only [except_bind_ok] at h
    injection h with h
    subst h
    obtain ⟨ih1, ih2⟩ := getTinfo_typeFromTif e cont hw' hc
    constructor
    · simp only [getTinfo, Bool.false_eq_true, if_false, if_pos rfl]
      rw [ih1]
      simp [except_bind_ok, canonT]
    · simpa [canonT, ccOKT] using ih2
| CType.fptr r a cc, t => by
  intro hw h
  simp only [WFt, Bool.and_eq_true] at hw
  obtain ⟨hwr, hwa⟩ := hw
  simp only [typeFromTif] at h
  cases hr : typeFromTif r with
  | error e =>
    rw [hr] at h
    simp only [except_bind_err] at h
    exact Except.noConfusion h
  | ok ret =>
    rw [hr] at h
    simp only [except_bind_ok] at h
    cases hcc : ccFixE cc with
    | error e =>
      rw [hcc] at h
      simp only [except_bind_err] at h
      exact Except.noConfusion h
    | ok ccv =>
      rw [hcc] at h
      simp only [except_bind_ok] at h
      cases ha : typeFromTifArgs a with
      | error e =>
        rw [ha] at h
        simp only [except_bind_err] at h
        exact Except.noConfusion h
      | ok args =>
        rw [ha] at h
        simp only [except_bind_ok] at h
        injection h with h
        subst h
        obtain ⟨ihr1, ihr2⟩ := getTinfo_typeFromTif r ret hwr hr
        obtain ⟨iha1, iha2⟩ := getTinfoArgs_typeFromTifArgs a args hwa ha
        obtain ⟨hccv, hccs⟩ := ccFixE_ok cc ccv hcc
        constructor
        · simp only [getTinfo, Bool.false_eq_true, if_false, if_pos rfl]
          rw [ihr1]
          simp only [except_bind_ok]
          rw [iha1]
          simp [except_bind_ok, canonT, hccv]
        · simp only [canonT, ccOKT, Bool.and_eq_true]
          exact ⟨⟨hccs, ihr2⟩, iha2⟩

theorem getTinfoArgs_typeFromTifArgs : ∀ (a : CTypes) (ts : PyTypes), WFtArgs a = true →
    typeFromTifArgs a = Except.ok ts →
    getTinfoArgs ts = Except.ok (canonTArgs a) ∧ ccOKTArgs (canonTArgs a) = true
| CTypes.nil, ts => by
  intro hw h
  simp only [typeFromTifArgs] at h
  injection h with h
  subst h
  exact ⟨rfl, rfl⟩
| CTypes.cons hd tl, ts => by
  intro hw h
  simp only [WFtArgs, Bool.and_eq_true] at hw
  obtain ⟨hwh, hwt⟩ := hw
  simp only [typeFromTifArgs] at h
  cases hx : typeFromTif hd with
  | error e =>
    rw [hx] at h
    simp only [except_bind_err] at h
    exact Except.noConfusion h
  | ok x =>
    rw [hx] at h
    simp only [except_bind_ok] at h
    cases hxs : typeFromTifArgs tl with
    | error e =>
      rw [hxs] at h
      simp only [except_bind_err] at h
      exact Except.noConfusion h
    | ok xs =>
      rw [hxs] at h
      simp only [except_bind_ok] at h
      injection h with h
      subst h
      obtain ⟨ih1, ih2⟩ := getTinfo_typeFromTif hd x hwh hx
      obtain ⟨jh1, jh2⟩ := getTinfoArgs_typeFromTifArgs tl xs hwt hxs
      constructor
      · simp only [getTinfoArgs]
        rw [ih1]
        simp only [except_bind_ok]
        rw [jh1]
        rfl
      · simp only [canonTArgs, ccOKTArgs, Bool.and_eq_true]
        exact ⟨ih2, jh2⟩
end

mutual
theorem typeFromTif_ok : ∀ c : CType, WFt c = true → ccOKT c = true →
    ∃ t, typeFromTif c = Except.ok t
| CType.base n => by
  intro _ _
  exact ⟨_, rfl⟩
| CType.ptr t0 => by
  intro hw hc
  obtain ⟨t, ht⟩ := typeFromTif_ok t0 hw hc
  simp only [typeFromTif, ht, except_bind_ok]
  exact ⟨_, rfl⟩
| CType.arr k e => by
  intro hw hc
  obtain ⟨t, ht⟩ := typeFromTif_ok e hw hc
  simp only [typeFromTif, ht, except_bind_ok]
  exact ⟨_, rfl⟩
| CType.fptr r a cc => by
  intro hw hc
  simp only [WFt, Bool.and_eq_true] at hw
  simp only [ccOKT, Bool.and_eq_true] at hc
  obtain ⟨⟨hcc, hcr⟩, hca⟩ := hc
  obtain ⟨tr, htr⟩ := typeFromTif_ok r hw.1 hcr
  obtain ⟨ta, hta⟩ := typeFromTifArgs_ok a hw.2 hca
  obtain ⟨e, he⟩ := ccFixE_of_isSome cc hcc
  simp only [typeFromTif, htr, he, hta, except_bind_ok]
  exact ⟨_, rfl⟩

theorem typeFromTifArgs_ok : ∀ a : CTypes, WFtArgs a = true → ccOKTArgs a = true →
    ∃ ts, typeFromTifArgs a = Except.ok ts
| CTypes.nil => by
  intro _ _
  exact ⟨_, rfl⟩
| CTypes.cons hd tl => by
  intro hw hc
  simp only [WFtArgs, Bool.and_eq_true] at hw
  simp only [ccOKTArgs, Bool.and_eq_true] at hc
  obtain ⟨x, hx⟩ := typeFromTif_ok hd hw.1 hc.1
  obtain ⟨xs, hxs⟩ := typeFromTifArgs_ok tl hw.2 hc.2
  simp only [typeFromTifArgs, hx, hxs, except_bind_ok]
  exact ⟨_, rfl⟩
end

theorem dstr_ne_empty : ∀ c : CType, WFt c = true → dstr c ≠ "" := by
  intro c hw h
  have h2 : (dstr c).data = "".data := by rw [h]
  rw [show (dstr c).data = dstrL c from rfl] at h2
  exact dstrL_ne_nil c hw (by simpa using h2)

theorem data_head_ne : ∀ (s t : String) (c1 c2 : Char) (l1 l2 : List Char),
    s.data = c1 :: l1 → t.data = c2 :: l2 → c1 ≠ c2 → s ≠ t := by
  intro s t c1 c2 l1 l2 h1 h2 hne h
  subst h
  rw [h1] at h2
  injection h2 with h3 _
  exact hne h3

theorem dstr_not_alias : ∀ c : CType, WFt c = true →
    dstr c ≠ "int" ∧ dstr c ≠ "uint" ∧ dstr c ≠ "boolean" := by
  intro c hw
  cases c with
  | base n =>
    rcases lookup_names n hw with h | h | h | h | h <;> subst h <;>
      exact ⟨by decide, by decide, by decide⟩
  | ptr t =>
    exact ⟨data_head_ne _ _ '*' 'i' _ _ rfl rfl (by decide),
      data_head_ne _ _ '*' 'u' _ _ rfl rfl (by decide),
      data_head_ne _ _ '*' 'b' _ _ rfl rfl (by decide)⟩
  | arr k e =>
    exact ⟨data_head_ne _ _ '[' 'i' _ _ rfl rfl (by decide),
      data_head_ne _ _ '[' 'u' _ _ rfl rfl (by decide),
      data_head_ne _ _ '[' 'b' _ _ rfl rfl (by decide)⟩
  | fptr r a cc =>
    exact ⟨data_head_ne _ _ 'F' 'i' _ _ rfl rfl (by decide),
      data_head_ne _ _ 'F' 'u' _ _ rfl rfl (by decide),
      data_head_ne _ _ 'F' 'b' _ _ rfl rfl (by decide)⟩

theorem aliasSub_dstr : ∀ c : CType, WFt c = true → aliasSub (dstr c) = dstr c := by
  intro c hw
  obtain ⟨h1, h2, h3⟩ := dstr_not_alias c hw
  unfold aliasSub
  rw [if_neg h1, if_neg h2, if_neg h3]

theorem getLast_mem : ∀ (l : List Char) (ch : Char), l.getLast? = some ch → ch ∈ l := by
  intro l
  induction l with
  | nil =>
    intro ch h
    simp [List.getLast?] at h
  | cons a tl ih =>
    intro ch h
    cases tl with
    | nil =>
      simp [List.getLast?] at h
      simp [h]
    | cons b tl2 =>
      rw [List.getLast?_cons_cons] at h
      exact List.mem_cons_of_mem a (ih ch h)

theorem endsSemi_dstr : ∀ c : CType, WFt c = true → endsSemi (dstr c) = false := by
  intro c hw
  unfold endsSemi
  cases hl : (dstr c).data.getLast? with
  | none => rfl
  | some ch =>
    have hmem : ch ∈ (dstr c).data := getLast_mem _ ch hl
    rw [show (dstr c).data = dstrL c from rfl] at hmem
    have := dstrL_no_semi c hw ch hmem
    simp [this]

theorem resolveDecl_dstr : ∀ c : CType, WFt c = true →
    resolveDecl (dstr c) = Except.ok (String.mk (dstrL c ++ [';'])) := by
  intro c hw
  unfold resolveDecl
  rw [aliasSub_dstr c hw]
  rw [if_neg (by
    intro h
    have h2 : (dstr c).data.length = 0 := h
    rw [show (dstr c).data = dstrL c from rfl] at h2
    exact dstrL_ne_nil c hw (List.eq_nil_of_length_eq_zero h2))]
  rw [endsSemi_dstr c hw]
  rfl

/-- Bridge: constructing a `Type` from the rendered declaration of a
well-formed handle is the same as snapshotting the handle directly.  This is
the fact that justifies `typeFromTif`'s direct recursion where the source
re-parses rendered sub-handles. -/
theorem typeOfDecl_dstr : ∀ c : CType, WFt c = true →
    typeOfDecl (dstr c) = typeFromTif c := by
  intro c hw
  unfold typeOfDecl
  rw [resolveDecl_dstr c hw]
  simp only [except_bind_ok]
  rw [parse_decl_dstr c hw]

mutual
theorem ceqT_refl : ∀ c : CType, ceqT c c = true
| CType.base n => by simp [ceqT]
| CType.ptr t => by simpa [ceqT] using ceqT_refl t
| CType.arr k e => by simp [ceqT, ceqT_refl e]
| CType.fptr r a cc => by simp [ceqT, ceqT_refl r, ceqTArgs_refl a]

theorem ceqTArgs_refl : ∀ a : CTypes, ceqTArgs a a = true
| CTypes.nil => by simp [ceqTArgs]
| CTypes.cons h t => by simp [ceqTArgs, ceqT_refl h, ceqTArgs_refl t]
end

theorem typeOfDecl_spec : ∀ (s : String) (t : PyType), typeOfDecl s = Except.ok t →
    ∃ c, WFt c = true ∧ typeFromTif c = Except.ok t := by
  intro s t h
  unfold typeOfDecl at h
  cases hr : resolveDecl s with
  | error e =>
    rw [hr] at h
    simp only [except_bind_err] at h
    exact Except.noConfusion h
  | ok s2 =>
    rw [hr] at h
    simp only [except_bind_ok] at h
    cases hp : parse_decl s2 with
    | none =>
      rw [hp] at h
      exact Except.noConfusion h
    | some c =>
      rw [hp] at h
      exact ⟨c, parse_decl_wf s2 c hp, h⟩

theorem clone_spec : ∀ (c : CType) (t : PyType), WFt c = true →
    typeFromTif c = Except.ok t →
    ∃ t2, clone t = Except.ok t2 ∧ getTinfo t2 = Except.ok (canonT c) ∧
      clone t2 = Except.ok t2 := by
  intro c t hw h
  obtain ⟨hg, hcc⟩ := getTinfo_typeFromTif c t hw h
  have hwD : WFt (canonT c) = true := canonT_WFt c hw
  obtain ⟨t2, ht2⟩ := typeFromTif_ok (canonT c) hwD hcc
  obtain ⟨hg2, _⟩ := getTinfo_typeFromTif (canonT c) t2 hwD ht2
  rw [canonT_id_of_ccOK (canonT c) hcc] at hg2
  have hbr := typeOfDecl_dstr (canonT c) hwD
  refine ⟨t2, ?_, hg2, ?_⟩
  · unfold clone
    rw [hg]
    simp only [except_bind_ok]
    rw [hbr]
    exact ht2
  · unfold clone
    rw [hg2]
    simp only [except_bind_ok]
    rw [hbr]
    exact ht2

theorem except_bind_okP (a : α) (f : α → Except PyErr β) :
    (Except.ok a : Except PyErr α).bind f = f a := rfl

theorem except_bind_errP (e : PyErr) (f : α → Except PyErr β) :
    (Except.error e : Except PyErr α).bind f = Except.error e := rfl

/-- Claim C4 (amended): for every descriptor successfully constructed from a
declaration (every such descriptor has a non-empty rendered declaration),
`get_pointer_to` followed by `get_contained_type` yields a descriptor equal
(per `Type.__eq__`) to the original, and for every positive `n`,
`get_array_of n` followed by `get_contained_type` yields a descriptor equal
to the original while `get_element_count` returns `n`.  A non-empty rendered
declaration alone is not enough: a descriptor mutated through
`set_contained_type` can render non-empty yet fail to re-parse, making
`get_pointer_to` raise instead (see `c4_counterexample`). -/
theorem c4_pointer_array_roundtrip : ∀ (s : String) (t : PyType),
    typeOfDecl s = Except.ok t →
    ((t.get_pointer_to).bind (fun p => (p.get_contained_type).bind (fun u => pyEq u t))
      = Except.ok true)
    ∧ ∀ n : Int, 0 < n →
      ((t.get_array_of (PyVal.int n)).bind
          (fun a => (a.get_contained_type).bind (fun u => pyEq u t)) = Except.ok true)
      ∧ ((t.get_array_of (PyVal.int n)).bind PyType.get_element_count = Except.ok n) := by
  intro s t h
  obtain ⟨c, hw, hft⟩ := typeOfDecl_spec s t h
  obtain ⟨hg, hcc⟩ := getTinfo_typeFromTif c t hw hft
  obtain ⟨t2, hclone, hg2, hclone2⟩ := clone_spec c t hw hft
  have hwD := canonT_WFt c hw
  have hne : dstr (canonT c) ≠ "" := dstr_ne_empty _ hwD
  constructor
  · simp only [PyType.get_pointer_to, hg, except_bind_ok]
    rw [if_neg hne]
    simp only [hclone, except_bind_ok, except_bind_okP]
    simp only [PyType.get_contained_type, PyType.is_array, PyType.is_pointer,
      PyType.isArrayF, PyType.isPtrF, PyType.containedF, Bool.not_false, Bool.not_true,
      Bool.and_false, Bool.false_and, if_false, Bool.false_eq_true]
    simp only [hclone2, except_bind_ok, except_bind_okP]
    simp only [pyEq, hg2, hg, except_bind_ok, except_bind_okP]
    rw [ceqT_refl]
  · intro n hn
    have hne2 : ¬(n ≤ 0) := by omega
    constructor
    · simp only [PyType.get_array_of]
      rw [if_neg hne2]
      simp only [hclone, except_bind_ok, except_bind_okP]
      simp only [PyType.get_contained_type, PyType.is_array, PyType.is_pointer,
        PyType.isArrayF, PyType.isPtrF, PyType.containedF, Bool.not_false, Bool.not_true,
        Bool.and_false, Bool.false_and, if_false, Bool.false_eq_true]
      simp only [hclone2, except_bind_ok, except_bind_okP]
      simp only [pyEq, hg2, hg, except_bind_ok, except_bind_okP]
      rw [ceqT_refl]
    · simp only [PyType.get_array_of]
      rw [if_neg hne2]
      simp only [hclone, except_bind_ok, except_bind_okP]
      simp only [PyType.get_element_count, PyType.is_array, PyType.isArrayF,
        PyType.elementCountF, Bool.not_true, Bool.false_eq_true, if_false]

/-- Claim C1 (code bug): the claim says `get_size()` returns the module-load
pointer size for pointer/function descriptors and the host-reported size for
plain descriptors, the branch being taken exactly for pointers/functions.  In
the source the branch guard reads `self.is_pointer or self.is_function()`
(truthy bound method, so the branch is taken for every non-array descriptor)
and its body returns the undefined name `POINTER_SIZE` (the module constant
is spelled `POITNER_SIZE`), so `get_size` raises `NameError` on a plain
`int32_t` descriptor — and on a genuine pointer descriptor as well — while
the constant that was actually computed at load time is 8. -/
theorem c1_get_size_name_error :
    ((typeOfDecl "int32_t").bind PyType.get_size)
      = Except.error (PyErr.nameError "name POINTER_SIZE is not defined")
    ∧ ((typeOfDecl "*int32_t").bind PyType.get_size)
      = Except.error (PyErr.nameError "name POINTER_SIZE is not defined")
    ∧ POITNER_SIZE = 8 :=
  ⟨rfl, rfl, rfl⟩

/-- Claim C2 (code bug): the claim says the size of `int32_t[3]` is
3 × 4 = 12.  The array branch of `get_size` does multiply the element count
by the element's `get_size()`, but that recursive call reaches the broken
pointer/function branch (see C1) and raises `NameError`, which propagates. -/
theorem c2_array_get_size_name_error :
    ((typeOfDecl "int32_t").bind (fun t => (t.get_array_of (PyVal.int 3)).bind PyType.get_size))
      = Except.error (PyErr.nameError "name POINTER_SIZE is not defined") := rfl

/-- Claim C3 (amended): every category accessor or mutator listed in the
claim raises `ValueError` on a descriptor of a non-matching category —
except `get_struct_name` and `set_struct_name`, which perform no category
check at all and never raise. -/
theorem c3_category_mismatch : ∀ t : PyType,
    (t.is_array = false →
      t.get_element_count = Except.error (PyErr.valueError "Not an array type")
      ∧ ∀ i : Int, t.set_element_count i = Except.error (PyErr.valueError "Not an array type"))
    ∧ (t.is_array = false → t.is_pointer = false →
      t.get_contained_type = Except.error (PyErr.valueError "Not a boxed type")
      ∧ ∀ u : PyType, t.set_contained_type u = Except.error (PyErr.valueError "Not a boxed type"))
    ∧ (t.is_function = false →
      t.get_args = Except.error (PyErr.valueError "Not a function type")
      ∧ t.get_ret_type = Except.error (PyErr.valueError "Not a function type")
      ∧ t.get_calling_convention = Except.error (PyErr.valueError "Not a function type")
      ∧ (∀ a : PyTypes, t.set_args a = Except.error (PyErr.valueError "Not a function type"))
      ∧ (∀ u : PyType, t.set_ret_type u = Except.error (PyErr.valueError "Not a function type"))
      ∧ (∀ v : CCArg, t.set_calling_convention v = Except.error (PyErr.valueError "Not a function type")))
    ∧ (t.is_struct = false →
      t.get_fields = Except.error (PyErr.valueError "Not a struct type")
      ∧ ∀ fl : List Unit, t.set_fields fl = Except.error (PyErr.valueError "Not a struct type"))
    ∧ (t.get_struct_name = Except.ok t.structNameF)
    ∧ (∀ s : String, t.set_struct_name s = Except.ok (setStructNameF t s)) := by
  intro t
  refine ⟨?_, ?_, ?_, ?_, rfl, fun _ => rfl⟩
  · intro h
    exact ⟨by simp [PyType.get_element_count, h],
      fun i => by simp [PyType.set_element_count, h]⟩
  · intro h1 h2
    exact ⟨by simp [PyType.get_contained_type, h1, h2],
      fun u => by simp [PyType.set_contained_type, h1, h2]⟩
  · intro h
    refine ⟨by simp [PyType.get_args, h], by simp [PyType.get_ret_type, h],
      by simp [PyType.get_calling_convention, h],
      fun a => by simp [PyType.set_args, h],
      fun u => by simp [PyType.set_ret_type, h],
      fun v => by simp [PyType.set_calling_convention, h]⟩
  · intro h
    exact ⟨by simp [PyType.get_fields, h],
      fun fl => by simp [PyType.set_fields, h]⟩

/-- Claim C3 counterexample: a non-struct descriptor (the default `Type()`)
on which `get_struct_name` returns the stored empty name and
`set_struct_name` succeeds — neither raises the `ValueError` the claim
asserts for category-mismatched calls. -/
theorem c3_counterexample :
    defaultType.is_struct = false
    ∧ defaultType.get_struct_name = Except.ok ""
    ∧ defaultType.set_struct_name "person_t"
        = Except.ok (setStructNameF defaultType "person_t") :=
  ⟨rfl, rfl, rfl⟩

theorem c3_witness :
    defaultType.get_element_count = Except.error (PyErr.valueError "Not an array type")
    ∧ defaultType.get_contained_type = Except.error (PyErr.valueError "Not a boxed type")
    ∧ defaultType.get_args = Except.error (PyErr.valueError "Not a function type")
    ∧ defaultType.get_fields = Except.error (PyErr.valueError "Not a struct type")
    ∧ defaultType.get_struct_name = Except.ok defaultType.structNameF :=
  ⟨((c3_category_mismatch defaultType).1 rfl).1,
   ((c3_category_mismatch defaultType).2.1 rfl rfl).1,
   ((c3_category_mismatch defaultType).2.2.1 rfl).1,
   ((c3_category_mismatch defaultType).2.2.2.1 rfl).1,
   (c3_category_mismatch defaultType).2.2.2.2.1⟩

def c4t : PyType :=
  match typeOfDecl "*int32_t" with
  | Except.ok t => t
  | Except.error _ => defaultType

theorem c4_witness :
    typeOfDecl "*int32_t" = Except.ok c4t
    ∧ ((c4t.get_pointer_to).bind (fun p => (p.get_contained_type).bind (fun u => pyEq u c4t))
        = Except.ok true)
    ∧ ((c4t.get_array_of (PyVal.int 3)).bind
        (fun a => (a.get_contained_type).bind (fun u => pyEq u c4t)) = Except.ok true)
    ∧ ((c4t.get_array_of (PyVal.int 3)).bind PyType.get_element_count = Except.ok 3) := by
  refine ⟨rfl, ?_, ?_, ?_⟩
  · exact (c4_pointer_array_roundtrip "*int32_t" c4t rfl).1
  · exact ((c4_pointer_array_roundtrip "*int32_t" c4t rfl).2 3 (by decide)).1
  · exact ((c4_pointer_array_roundtrip "*int32_t" c4t rfl).2 3 (by decide)).2

/-- The descriptor `Type('*int32_t')` after `set_contained_type(Type())`:
a pointer descriptor whose contained type has been mutated to the default
`Type()`. -/
def c4bad : PyType :=
  match (typeOfDecl "*int32_t").bind (fun t => t.set_contained_type defaultType) with
  | Except.ok t => t
  | Except.error _ => defaultType

/-- Claim C4 counterexample: the claim as stated covers every descriptor
whose rendered declaration is non-empty, not only freshly constructed ones.
The reachable descriptor `c4bad` renders as `"*"` — non-empty — yet
`get_pointer_to` raises `ValueError` (its internal `clone` re-parses the
rendering `"*;"`, which the host parser rejects) instead of producing a
pointer descriptor whose contained type equals the original. -/
theorem c4_counterexample :
    ((typeOfDecl "*int32_t").bind (fun t => t.set_contained_type defaultType))
      = Except.ok c4bad
    ∧ getTinfo c4bad = Except.ok (CType.ptr (CType.base ""))
    ∧ dstr (CType.ptr (CType.base "")) = "*"
    ∧ ("*" : String) ≠ ""
    ∧ c4bad.get_pointer_to = Except.error (PyErr.valueError "Bad declaration \"*;\"") :=
  ⟨rfl, rfl, rfl, by decide, rfl⟩

/-- Claim C5: for every descriptor successfully constructed from a
declaration, at most one of `is_pointer()`, `is_array()`, `is_function()`
holds; in particular a function descriptor does not also report itself as a
pointer (`__init__` resets `_is_ptr` on line 122). -/
theorem c5_category_flags_exclusive : ∀ (s : String) (t : PyType),
    typeOfDecl s = Except.ok t →
    (t.is_pointer && t.is_array) = false
    ∧ (t.is_pointer && t.is_function) = false
    ∧ (t.is_array && t.is_function) = false
    ∧ (t.is_function = true → t.is_pointer = false) := by
  intro s t h
  obtain ⟨c, hw, hft⟩ := typeOfDecl_spec s t h
  cases c with
  | base n =>
    simp only [typeFromTif] at hft
    injection hft with h2
    subst h2
    exact ⟨rfl, rfl, rfl, fun _ => rfl⟩
  | ptr t0 =>
    simp only [typeFromTif] at hft
    cases hc : typeFromTif t0 with
    | error e =>
      rw [hc] at hft
      simp only [except_bind_err] at hft
      exact Except.noConfusion hft
    | ok cont =>
      rw [hc] at hft
      simp only [except_bind_ok] at hft
      injection hft with h2
      subst h2
      exact ⟨rfl, rfl, rfl, fun hh => by simp [PyType.is_function, PyType.isFunctionF] at hh⟩
  | arr k e =>
    simp only [typeFromTif] at hft
    cases hc : typeFromTif e with
    | error er =>
      rw [hc] at hft
      simp only [except_bind_err] at hft
      exact Except.noConfusion hft
    | ok cont =>
      rw [hc] at hft
      simp only [except_bind_ok] at hft
      injection hft with h2
      subst h2
      exact ⟨rfl, rfl, rfl, fun hh => by simp [PyType.is_function, PyType.isFunctionF] at hh⟩
  | fptr r a cc =>
    simp only [typeFromTif] at hft
    cases h1 : typeFromTif r with
    | error e =>
      rw [h1] at hft
      simp only [except_bind_err] at hft
      exact Except.noConfusion hft
    | ok ret =>
      rw [h1] at hft
      simp only [except_bind_ok] at hft
      cases h2 : ccFixE cc with
      | error e =>
        rw [h2] at hft
        simp only [except_bind_err] at hft
        exact Except.noConfusion hft
      | ok ccv =>
        rw [h2] at hft
        simp only [except_bind_ok] at hft
        cases h3 : typeFromTifArgs a with
        | error e =>
          rw [h3] at hft
          simp only [except_bind_err] at hft
          exact Except.noConfusion hft
        | ok args =>
          rw [h3] at hft
          simp only [except_bind_ok] at hft
          injection hft with h4
          subst h4
          exact ⟨rfl, rfl, rfl, fun _ => rfl⟩

def c5t : PyType :=
  match typeOfDecl "FIIIIIIIIIIIIIIIIA,void," with
  | Except.ok t => t
  | Except.error _ => defaultType

theorem c5_witness :
    typeOfDecl "FIIIIIIIIIIIIIIIIA,void," = Except.ok c5t
    ∧ c5t.is_function = true
    ∧ (c5t.is_pointer && c5t.is_array) = false
    ∧ c5t.is_pointer = false := by
  refine ⟨rfl, rfl, ?_, ?_⟩
  · exact (c5_category_flags_exclusive "FIIIIIIIIIIIIIIIIA,void," c5t rfl).1
  · exact (c5_category_flags_exclusive "FIIIIIIIIIIIIIIIIA,void," c5t rfl).2.2.2 rfl

/-- Claim C6 (amended): when a function type is constructed, the stored
calling convention is `CallingConventions(cc)` exactly when `cc` is a member
value; when it is not, the constructor stores `CallingConventions(cc ^ 3)`
provided that value is a member — and when neither is a member, the second
enum lookup's `ValueError` propagates and no descriptor is produced at
all. -/
theorem c6_calling_convention_fallback : ∀ (r : CType) (a : CTypes) (cc : Nat),
    (∀ (t : PyType) (e : CallingConventions),
      typeFromTif (CType.fptr r a cc) = Except.ok t → ccOfValue cc = some e → t.ccF = e)
    ∧ (∀ (t : PyType) (e : CallingConventions),
      typeFromTif (CType.fptr r a cc) = Except.ok t → ccOfValue cc = none →
        ccOfValue (cc ^^^ 3) = some e → t.ccF = e)
    ∧ (ccOfValue cc = none → ccOfValue (cc ^^^ 3) = none →
      ∀ t : PyType, typeFromTif (CType.fptr r a cc) ≠ Except.ok t) := by
  intro r a cc
  refine ⟨?_, ?_, ?_⟩
  · intro t e h hv
    simp only [typeFromTif] at h
    cases h1 : typeFromTif r with
    | error er =>
      rw [h1] at h
      simp only [except_bind_err] at h
      exact Except.noConfusion h
    | ok ret =>
      rw [h1] at h
      simp only [except_bind_ok] at h
      have hfix : ccFixE cc = Except.ok e := by
        unfold ccFixE
        rw [hv]
      rw [hfix] at h
      simp only [except_bind_ok] at h
      cases h3 : typeFromTifArgs a with
      | error er =>
        rw [h3] at h
        simp only [except_bind_err] at h
        exact Except.noConfusion h
      | ok args =>
        rw [h3] at h
        simp only [except_bind_ok] at h
        injection h with h
        subst h
        rfl
  · intro t e h hv0 hv1
    simp only [typeFromTif] at h
    cases h1 : typeFromTif r with
    | error er =>
      rw [h1] at h
      simp only [except_bind_err] at h
      exact Except.noConfusion h
    | ok ret =>
      rw [h1] at h
      simp only [except_bind_ok] at h
      have hfix : ccFixE cc = Except.ok e := by
        unfold ccFixE
        rw [hv0, hv1]
      rw [hfix] at h
      simp only [except_bind_ok] at h
      cases h3 : typeFromTifArgs a with
      | error er =>
        rw [h3] at h
        simp only [except_bind_err] at h
        exact Except.noConfusion h
      | ok args =>
        rw [h3] at h
        simp only [except_bind_ok] at h
        injection h with h
        subst h
        rfl
  · intro hv0 hv1 t h
    simp only [typeFromTif] at h
    cases h1 : typeFromTif r with
    | error er =>
      rw [h1] at h
      simp only [except_bind_err] at h
      exact Except.noConfusion h
    | ok ret =>
      rw [h1] at h
      simp only [except_bind_ok] at h
      have hfix : ccFixE cc = Except.error (PyErr.valueError "not a valid CallingConventions") := by
        unfold ccFixE
        rw [hv0, hv1]
      rw [hfix] at h
      simp only [except_bind_err] at h
      exact Except.noConfusion h

/-- Claim C6 counterexample: the claim as stated says an invalid raw value
`cc` always results in the stored value `CallingConventions(cc ^ 3)`.  For
`cc = 1` (rendered as one unary marker in `"FIA,void,"`) both lookups fail:
nothing is stored and the constructor raises `ValueError` instead. -/
theorem c6_counterexample :
    typeOfDecl "FIA,void," = Except.error (PyErr.valueError "not a valid CallingConventions")
    ∧ ccOfValue 1 = none
    ∧ ccOfValue (1 ^^^ 3) = none :=
  ⟨rfl, rfl, rfl⟩

def c6t : PyType :=
  match typeFromTif (CType.fptr (CType.base "void") CTypes.nil 51) with
  | Except.ok t => t
  | Except.error _ => defaultType

theorem c6_witness :
    typeFromTif (CType.fptr (CType.base "void") CTypes.nil 51) = Except.ok c6t
    ∧ ccOfValue 51 = none
    ∧ ccOfValue (51 ^^^ 3) = some CallingConventions.cdecl
    ∧ c6t.ccF = CallingConventions.cdecl :=
  ⟨rfl, rfl, rfl,
    (c6_calling_convention_fallback (CType.base "void") CTypes.nil 51).2.1
      c6t CallingConventions.cdecl rfl rfl rfl⟩

/-- Claim C7: constructing `Type` from exactly `'int'`, `'uint'` or
`'boolean'` hands the host parser the alias substitution with `';'`
appended — `'int32_t;'`, `'uint32_t;'`, `'bool;'` — and by definition of the
constructor the substitution (part of `resolveDecl`) happens before the
parser is invoked on its result. -/
theorem c7_alias_substitution :
    resolveDecl "int" = Except.ok "int32_t;"
    ∧ resolveDecl "uint" = Except.ok "uint32_t;"
    ∧ resolveDecl "boolean" = Except.ok "bool;"
    ∧ ∀ s : String, typeOfDecl s = (resolveDecl s).bind (fun s2 =>
        match parse_decl s2 with
        | none => Except.error (PyErr.valueError ("Bad declaration \"" ++ s2 ++ "\""))
        | some c => typeFromTif c) :=
  ⟨rfl, rfl, rfl, fun _ => rfl⟩

theorem c7_witness :
    resolveDecl "int" = Except.ok "int32_t;"
    ∧ typeOfDecl "int" = (resolveDecl "int").bind (fun s2 =>
        match parse_decl s2 with
        | none => Except.error (PyErr.valueError ("Bad declaration \"" ++ s2 ++ "\""))
        | some c => typeFromTif c) :=
  ⟨c7_alias_substitution.1, c7_alias_substitution.2.2.2 "int"⟩

/-- Claim C8: an empty declaration string raises `ValueError('Empty decl')`,
and a declaration the host parser rejects (`parse_decl` returning `None`)
raises `ValueError('Bad declaration ...')`; in both cases the constructor
aborts with the error and no descriptor is produced. -/
theorem c8_bad_decl_value_error :
    typeOfDecl "" = Except.error (PyErr.valueError "Empty decl")
    ∧ ∀ (s s2 : String), resolveDecl s = Except.ok s2 → parse_decl s2 = none →
      typeOfDecl s = Except.error (PyErr.valueError ("Bad declaration \"" ++ s2 ++ "\"")) := by
  constructor
  · rfl
  · intro s s2 h1 h2
    unfold typeOfDecl
    rw [h1]
    simp only [except_bind_ok]
    rw [h2]

theorem c8_witness :
    typeOfDecl "?" = Except.error (PyErr.valueError "Bad declaration \"?;\"") :=
  c8_bad_decl_value_error.2 "?" "?;" rfl rfl

/-- Claim C9: `toggle_const` leaves the stored `_is_const` flag unchanged —
its assignment target is the instance attribute `is_const` (which receives
the negation), while `toggle_volatile` genuinely negates `_is_volatile`. -/
theorem c9_toggle_const_frame : ∀ t : PyType,
    (t.toggle_const).isConstF = t.isConstF
    ∧ (t.toggle_const).isConstAttrF = Option.some (!t.isConstF)
    ∧ (t.toggle_volatile).isVolatileF = !t.isVolatileF := by
  intro t
  cases t
  exact ⟨rfl, rfl, rfl⟩

theorem c9_witness :
    (defaultType.toggle_const).isConstF = defaultType.isConstF
    ∧ (defaultType.toggle_const).isConstAttrF = Option.some (!defaultType.isConstF)
    ∧ (defaultType.toggle_volatile).isVolatileF = !defaultType.isVolatileF :=
  c9_toggle_const_frame defaultType

/-- Claim C10 (amended): `get_array_of` raises
`ValueError('Must have a natural number for element count')` whenever the
argument is not an int or is ≤ 0 (the receiver, which the method never
assigns to, is unchanged — all methods here are pure state transformers);
with a valid count the result is built from `clone(self)`, so the call can
additionally raise `ValueError` exactly when cloning fails, as it does for
the default-constructed descriptor whose placeholder declaration renders
empty. -/
theorem c10_get_array_of_validation : ∀ (t : PyType) (v : PyVal),
    (v = PyVal.obj →
      t.get_array_of v = Except.error (PyErr.valueError "Must have a natural number for element count"))
    ∧ (∀ i : Int, v = PyVal.int i → i ≤ 0 →
      t.get_array_of v = Except.error (PyErr.valueError "Must have a natural number for element count"))
    ∧ (∀ i : Int, v = PyVal.int i → 0 < i →
      t.get_array_of v = (clone t).map (fun cl =>
        PyType.mk "?" false false Option.none (OPyType.some cl) false true i false
          OPyType.none PyTypes.nil CallingConventions.invalid false "" [])) := by
  intro t v
  refine ⟨?_, ?_, ?_⟩
  · intro h
    subst h
    rfl
  · intro i h hle
    subst h
    simp [PyType.get_array_of, hle]
  · intro i h hpos
    subst h
    simp only [PyType.get_array_of]
    rw [if_neg (by omega)]
    cases hc : clone t <;> rfl

/-- Claim C10 counterexample: on the default `Type()` the element count 5 is
a perfectly valid positive int, yet `get_array_of` raises `ValueError`
(from `clone`, whose re-parse of the placeholder declaration fails and whose
rendered declaration is empty). -/
theorem c10_counterexample :
    defaultType.get_array_of (PyVal.int 5) = Except.error (PyErr.valueError "Empty decl")
    ∧ (0 : Int) < 5 :=
  ⟨rfl, by decide⟩

theorem c10_witness :
    defaultType.get_array_of (PyVal.int 0)
      = Except.error (PyErr.valueError "Must have a natural number for element count") :=
  (c10_get_array_of_validation defaultType (PyVal.int 0)).2.1 0 rfl (by decide)
